import Mathlib

/-!
Shallow embedding of the two marketplace scripts of the blackhole repository:
`generate-catalog-from-releases.py` (release-tag-to-catalog-entry mapping,
asset/platform extraction, catalog assembly, CLI error handling) and
`convert-plugin-manifest.py` (manifest-to-catalog-entry field mapping).
Python strings are `String`, Python lists are `List`, Python dicts holding the
downloads are insertion-ordered association lists, absent/null JSON fields are
`Option`s, and Python exceptions are `Except String`.
-/

/-- Python `s.split(sep)` for a single-character separator, over char lists.
`split` keeps empty segments, and the empty string yields one empty segment. -/
def splitOnChar (sep : Char) : List Char → List (List Char)
  | [] => [[]]
  | c :: rest =>
    match splitOnChar sep rest with
    | [] => [[]]
    | grp :: grps => if c = sep then [] :: grp :: grps else (c :: grp) :: grps

/-- Python `s.split(sep)` on strings. -/
def pySplit (sep : Char) (s : String) : List String :=
  (splitOnChar sep s.data).map String.mk

/-- Python `s.startswith(pre)`. -/
def pyStartsWith (s pre : String) : Bool := pre.data.isPrefixOf s.data

/-- Python `s.endswith(suf)`. -/
def pyEndsWith (s suf : String) : Bool := suf.data.isSuffixOf s.data

/-- Python `pat in s` substring test, over char lists. -/
def isSubstrL (pat : List Char) : List Char → Bool
  | [] => pat.isEmpty
  | c :: rest => pat.isPrefixOf (c :: rest) || isSubstrL pat rest

/-- Python `pat in s` on strings. -/
def hasSubstr (pat s : String) : Bool := isSubstrL pat.data s.data

/-- Python `s.lstrip(c)`: removes every leading occurrence of the character `c`. -/
def pyLstrip (c : Char) (s : String) : String :=
  String.mk (s.data.dropWhile (fun x => x == c))

/-- Fuel-driven core of Python `s.replace(old, new)`: scan left to right and
replace every non-overlapping occurrence of `old` by `new`.  The fuel is set to
the length of the scanned list, which is enough for a nonempty `old`. -/
def pyReplaceAux (old new : List Char) : Nat → List Char → List Char
  | 0, s => s
  | _ + 1, [] => []
  | fuel + 1, c :: rest =>
    if old.isPrefixOf (c :: rest) then
      new ++ pyReplaceAux old new fuel (List.drop old.length (c :: rest))
    else
      c :: pyReplaceAux old new fuel rest

/-- Python `s.replace(old, new)` on strings. -/
def pyReplace (s old new : String) : String :=
  String.mk (pyReplaceAux old.data new.data s.data.length s.data)

/-- Core of Python `s.title()`: a letter is uppercased when the previous
character is not a letter, and lowercased otherwise. -/
def pyTitleAux : Bool → List Char → List Char
  | _, [] => []
  | prevAlpha, c :: rest =>
    if c.isAlpha then
      (if prevAlpha then c.toLower else c.toUpper) :: pyTitleAux true rest
    else
      c :: pyTitleAux false rest

/-- Python `s.title()` on strings. -/
def pyTitle (s : String) : String := String.mk (pyTitleAux false s.data)

/-- Python list indexing `l[i]`, raising an `IndexError` when out of range. -/
def listIdx {α : Type} (l : List α) (i : Nat) : Except String α :=
  match l[i]? with
  | some x => Except.ok x
  | none => Except.error "IndexError: list index out of range"

/-- One downloadable file attached to a release: `asset['name']`, `asset['url']`. -/
structure Asset where
  name : String
  url : String
deriving DecidableEq

/-- A release record as returned by the release-listing collaborator.
`body` and `publishedAt` distinguish an absent key (`none`) from a
present-but-null value (`some none`); the `assets` key may be absent. -/
structure Release where
  tagName : String
  name : String := ""
  body : Option (Option String) := none
  publishedAt : Option (Option String) := none
  assets : Option (List Asset) := none
deriving DecidableEq

/-- `{"url": ..., "checksumUrl": ...}` recorded per platform. -/
structure DownloadEntry where
  url : String
  checksumUrl : String
deriving DecidableEq

/-- The `metadata` sub-object of a catalog plugin entry. -/
structure PluginMetadata where
  description : String
  publishedAt : Option String
deriving DecidableEq

/-- One entry of the catalog's `plugins` list.  `downloads` is the Python dict,
kept as an insertion-ordered association list. -/
structure CatalogPluginEntry where
  id : String
  name : String
  version : String
  official : Bool
  downloads : List (String × DownloadEntry)
  metadata : PluginMetadata
deriving DecidableEq

/-- The catalog envelope built by `generate_catalog`. -/
structure Catalog where
  version : String
  updated : String
  baseUrl : String
  plugins : List CatalogPluginEntry
deriving DecidableEq

/-- Python dict assignment `d[k] = v` on an insertion-ordered association list:
an existing key keeps its position and gets the new value, a new key is
appended at the end. -/
def dictInsert (k : String) (v : DownloadEntry) :
    List (String × DownloadEntry) → List (String × DownloadEntry)
  | [] => [(k, v)]
  | (k', v') :: rest =>
    if k' = k then (k, v) :: rest else (k', v') :: dictInsert k v rest

/-- Python dict lookup `d.get(k)` on an association list. -/
def dictGet (k : String) : List (String × DownloadEntry) → Option DownloadEntry
  | [] => none
  | (k', v) :: rest => if k' = k then some v else dictGet k rest

/-- The fixed platform iteration order of the asset-scanning loop. -/
def platformKeys : List String :=
  ["darwin-amd64", "darwin-arm64", "linux-amd64", "linux-arm64"]

/-- The download entry built from one asset:
`{"url": asset['url'], "checksumUrl": asset['url'].replace('.plugin', '.plugin.sha256')}`. -/
def mkDownloadEntry (a : Asset) : DownloadEntry :=
  { url := a.url, checksumUrl := pyReplace a.url ".plugin" ".plugin.sha256" }

/-- The inner platform loop of `parse_plugin_release`: for each platform key in
order, if it occurs in the asset name, record the download entry (no break). -/
def recordPlatforms (a : Asset) : List String →
    List (String × DownloadEntry) → List (String × DownloadEntry)
  | [], d => d
  | p :: ps, d =>
    recordPlatforms a ps
      (if hasSubstr p a.name then dictInsert p (mkDownloadEntry a) d else d)

/-- Handling of one asset in the scanning loop: only names ending in `.plugin`
are considered. -/
def processAsset (a : Asset) (d : List (String × DownloadEntry)) :
    List (String × DownloadEntry) :=
  if pyEndsWith a.name ".plugin" then recordPlatforms a platformKeys d else d

/-- The `for asset in assets` loop of `parse_plugin_release`, accumulating the
`downloads` dict. -/
def scanAssets (assets : List Asset) (d : List (String × DownloadEntry)) :
    List (String × DownloadEntry) :=
  assets.foldl (fun d a => processAsset a d) d

/-- `release.get('body', '').split('\n')[0] if release.get('body') else ''`:
the description is the first line of the body when the body is present,
non-null and nonempty, and the empty string otherwise. -/
def descriptionOfE (body : Option (Option String)) : Except String String :=
  match body with
  | some (some b) =>
    if b = "" then Except.ok ""
    else
      match listIdx (pySplit (Char.ofNat 10) b) 0 with
      | Except.ok l => Except.ok l
      | Except.error e => Except.error e
  | _ => Except.ok ""

/-- `release.get('publishedAt', '')`: the default applies only when the key is
absent; a present-but-null value stays null. -/
def pubOf (r : Release) : Option String :=
  match r.publishedAt with
  | none => some ""
  | some v => v

/-- `parse_plugin_release` from generate-catalog-from-releases.py.  Returns
`Except.ok none` for the two silent discard paths (fewer than 3 tag parts,
empty downloads), `Except.ok (some entry)` otherwise; a Python exception would
surface as `Except.error`. -/
def parsePluginReleaseE (r : Release) : Except String (Option CatalogPluginEntry) :=
  if (pySplit '-' r.tagName).length < 3 then Except.ok none
  else
    match listIdx (pySplit '-' r.tagName) 1 with
    | Except.error e => Except.error e
    | Except.ok plugin_id =>
      match listIdx (pySplit '-' r.tagName) 2 with
      | Except.error e => Except.error e
      | Except.ok p2 =>
        if scanAssets (r.assets.getD []) [] = [] then Except.ok none
        else
          match descriptionOfE r.body with
          | Except.error e => Except.error e
          | Except.ok desc =>
            Except.ok (some
              { id := plugin_id,
                name := pyTitle (pyReplace plugin_id "-" " "),
                version := pyLstrip 'v' p2,
                official := true,
                downloads := scanAssets (r.assets.getD []) [],
                metadata := { description := desc, publishedAt := pubOf r } })

/-- Outcome of the external `gh release list` invocation, after JSON decoding
of its standard output (the JSON layer is outside the specified boundary). -/
structure CollabResult where
  returncode : Int
  releases : List Release
  stderr : String
deriving DecidableEq

/-- `get_plugin_releases`: fail with the collaborator's diagnostic text when the
return code is nonzero, otherwise keep the releases whose tag starts with
`plugin-`. -/
def getPluginReleases (c : CollabResult) : Except String (List Release) :=
  if c.returncode ≠ 0 then Except.error ("Failed to get releases: " ++ c.stderr)
  else Except.ok (c.releases.filter (fun r => pyStartsWith r.tagName "plugin-"))

/-- The per-release loop of `generate_catalog`: parse each release, keep the
successful entries in order, propagate any exception. -/
def collectPlugins : List Release → Except String (List CatalogPluginEntry)
  | [] => Except.ok []
  | r :: rest =>
    match parsePluginReleaseE r with
    | Except.error e => Except.error e
    | Except.ok none => collectPlugins rest
    | Except.ok (some entry) =>
      match collectPlugins rest with
      | Except.error e => Except.error e
      | Except.ok ps => Except.ok (entry :: ps)

/-- The constant `baseUrl` of the catalog envelope. -/
def catalogBaseUrl : String :=
  "https://github.com/blackhole-pro/blackhole/releases/download"

/-- `generate_catalog`: list releases through the collaborator, parse them, and
wrap the surviving entries.  `now` stands for `datetime.utcnow().isoformat()`. -/
def generateCatalog (c : CollabResult) (now : String) : Except String Catalog :=
  match getPluginReleases c with
  | Except.error e => Except.error e
  | Except.ok releases =>
    match collectPlugins releases with
    | Except.error e => Except.error e
    | Except.ok plugins =>
      Except.ok
        { version := "1.0", updated := now ++ "Z",
          baseUrl := catalogBaseUrl, plugins := plugins }

/-- Observable outcome of running the script's `__main__` block: exit code,
what lands on standard output (a catalog, or the error line printed by the
plain `print`), and what lands on standard error. -/
structure MainResult where
  exitCode : Nat
  stdoutCatalog : Option Catalog
  stdoutError : Option String
  stderrError : Option String
deriving DecidableEq

/-- The `__main__` block of generate-catalog-from-releases.py: print the catalog
on success; on exception, `print(f"Error: {e}")` (standard output) and exit 1. -/
def runMain (c : CollabResult) (now : String) : MainResult :=
  match generateCatalog c now with
  | Except.ok catalog =>
    { exitCode := 0, stdoutCatalog := some catalog,
      stdoutError := none, stderrError := none }
  | Except.error e =>
    { exitCode := 1, stdoutCatalog := none,
      stdoutError := some ("Error: " ++ e), stderrError := none }

/-- The `metadata` section of a plugin manifest (only its used key). -/
structure ManifestMetadata where
  name : Option String := none
deriving DecidableEq

/-- The `spec` section of a plugin manifest; every key may be absent. -/
structure ManifestSpec where
  displayName : Option String := none
  version : Option String := none
  description : Option String := none
  category : Option String := none
  author : Option (List (String × String)) := none
  license : Option String := none
  repository : Option String := none
  documentation : Option String := none
  keywords : Option (List String) := none
  requirements : Option (List (String × String)) := none
  capabilities : Option (List String) := none
  resources : Option (List (String × String)) := none
deriving DecidableEq

/-- A manifest document; an absent section behaves like an empty one. -/
structure Manifest where
  metadata : ManifestMetadata := {}
  spec : ManifestSpec := {}
deriving DecidableEq

/-- The marketplace entry built by `convert_manifest`. -/
structure MarketplaceEntry where
  id : Option String
  name : Option String
  version : Option String
  description : String
  category : String
  author : List (String × String)
  license : String
  sourceType : String
  sourceUrl : String
  repository : String
  documentation : String
  keywords : List String
  requirements : List (String × String)
  capabilities : List String
  resources : List (String × String)
  statsUpdated : String
deriving DecidableEq

/-- How Python renders an optional string inside an f-string: `None` prints as
the text "None". -/
def optStr : Option String → String
  | some s => s
  | none => "None"

/-- `convert_manifest` from convert-plugin-manifest.py: direct field mapping
with per-field defaults.  `now` stands for `datetime.utcnow().isoformat()`. -/
def convertManifest (m : Manifest) (now : String) : MarketplaceEntry :=
  { id := m.metadata.name,
    name :=
      match m.spec.displayName with
      | some d => some d
      | none => m.metadata.name,
    version := m.spec.version,
    description := m.spec.description.getD "",
    category := m.spec.category.getD "uncategorized",
    author := m.spec.author.getD [],
    license := m.spec.license.getD "MIT",
    sourceType := "release",
    sourceUrl :=
      "https://github.com/blackhole-pro/blackhole/releases/tag/plugin-"
        ++ optStr m.metadata.name ++ "-v" ++ optStr m.spec.version,
    repository := m.spec.repository.getD "https://github.com/blackhole-pro/blackhole",
    documentation := m.spec.documentation.getD "",
    keywords := m.spec.keywords.getD [],
    requirements := m.spec.requirements.getD [],
    capabilities := m.spec.capabilities.getD [],
    resources := m.spec.resources.getD [],
    statsUpdated := now ++ "Z" }

/-- Modelled from the spec claim's words, for comparison with the source's
`replace`: substitute only the FIRST occurrence of `old`, leaving the rest of
the string untouched. -/
def replaceFirstSpec (old new : List Char) : List Char → List Char
  | [] => []
  | c :: rest =>
    if old.isPrefixOf (c :: rest) then new ++ List.drop old.length (c :: rest)
    else c :: replaceFirstSpec old new rest

/-- Modelled from the amended spec wording, for comparison with the source's
fuel-driven `replace`: substitute EVERY non-overlapping occurrence of `old`,
scanning left to right (well-founded recursion, no fuel). -/
def replaceEverySpec (old new : List Char) : List Char → List Char
  | [] => []
  | c :: rest =>
    if h : old ≠ [] ∧ old.isPrefixOf (c :: rest) then
      new ++ replaceEverySpec old new (List.drop old.length (c :: rest))
    else
      c :: replaceEverySpec old new rest
termination_by s => s.length
decreasing_by
  · obtain ⟨h1, -⟩ := h
    have : 0 < old.length := List.length_pos.mpr h1
    simp only [List.length_drop, List.length_cons]
    omega
  · simp

/-- Modelled from the spec claim's words: remove every leading occurrence of
the character `c` (the amended reading of "leading `v` stripped"). -/
def stripAllLeadingSpec (c : Char) : List Char → List Char
  | [] => []
  | x :: rest => if x = c then stripAllLeadingSpec c rest else x :: rest

/-- Whether an asset would be recorded for platform key `p`: its name ends in
`.plugin` and contains `p` as a substring. -/
def assetMatches (p : String) (a : Asset) : Bool :=
  pyEndsWith a.name ".plugin" && hasSubstr p a.name

/-- Modelled from the amended spec wording: the last asset of the list, in
order, that would be recorded for platform key `p` (map semantics, last writer
wins). -/
def lastMatchingSpec (p : String) : List Asset → Option Asset
  | [] => none
  | a :: rest =>
    match lastMatchingSpec p rest with
    | some b => some b
    | none => if assetMatches p a then some a else none

/-- The pure result of the per-release loop body: the entry parsed from a
release, or nothing when the release is discarded or would have raised. -/
def parseOpt (r : Release) : Option CatalogPluginEntry :=
  match parsePluginReleaseE r with
  | Except.ok p => p
  | Except.error _ => none

/-- An in-range Python index succeeds. -/
theorem listIdx_isOk {α : Type} (l : List α) (i : Nat) (h : i < l.length) :
    listIdx l i = Except.ok l[i] := by
  simp [listIdx, List.getElem?_eq_getElem h]

/-- `split` never returns an empty list of segments. -/
theorem splitOnChar_ne_nil (sep : Char) (s : List Char) : splitOnChar sep s ≠ [] := by
  cases s with
  | nil => simp [splitOnChar]
  | cons c rest =>
    simp only [splitOnChar]
    split
    · simp
    · split <;> simp

/-- `split` on a string yields at least one segment. -/
theorem pySplit_length_pos (sep : Char) (s : String) : 0 < (pySplit sep s).length := by
  have h := splitOnChar_ne_nil sep s.data
  simp only [pySplit, List.length_map]
  exact List.length_pos.mpr h

/-- Computing the description never raises. -/
theorem descriptionOfE_ok (body : Option (Option String)) :
    ∃ s, descriptionOfE body = Except.ok s := by
  match body with
  | none => exact ⟨"", rfl⟩
  | some none => exact ⟨"", rfl⟩
  | some (some b) =>
    by_cases hb : b = ""
    · exact ⟨"", by simp [descriptionOfE, hb]⟩
    · have hlen := pySplit_length_pos (Char.ofNat 10) b
      refine ⟨(pySplit (Char.ofNat 10) b)[0], ?_⟩
      simp [descriptionOfE, hb, listIdx_isOk _ 0 hlen]

/-- Parsing one release never raises. -/
theorem parse_total (r : Release) :
    ∃ p, parsePluginReleaseE r = Except.ok p := by
  unfold parsePluginReleaseE
  split
  · exact ⟨none, rfl⟩
  · rename_i h3
    have h1 : 1 < (pySplit '-' r.tagName).length := by omega
    have h2 : 2 < (pySplit '-' r.tagName).length := by omega
    rw [listIdx_isOk _ 1 h1, listIdx_isOk _ 2 h2]
    simp only []
    split
    · exact ⟨none, rfl⟩
    · obtain ⟨d, hd⟩ := descriptionOfE_ok r.body
      rw [hd]
      exact ⟨_, rfl⟩

/-- Parsing one release equals its pure per-release result. -/
theorem parsePluginReleaseE_eq_ok (r : Release) :
    parsePluginReleaseE r = Except.ok (parseOpt r) := by
  obtain ⟨p, hp⟩ := parse_total r
  rw [hp, parseOpt, hp]

/-- The per-release loop collects exactly the pure per-release results. -/
theorem collectPlugins_eq (l : List Release) :
    collectPlugins l = Except.ok (l.filterMap parseOpt) := by
  induction l with
  | nil => rfl
  | cons r rest ih =>
    rw [collectPlugins, parsePluginReleaseE_eq_ok r]
    cases hp : parseOpt r with
    | none => simp [List.filterMap_cons, hp, ih]
    | some e => simp [List.filterMap_cons, hp, ih]

/-- With a successful collaborator, the catalog is the envelope around the
filtered, parsed releases. -/
theorem generateCatalog_ok (rel : List Release) (err now : String) :
    generateCatalog { returncode := 0, releases := rel, stderr := err } now =
      Except.ok
        { version := "1.0", updated := now ++ "Z", baseUrl := catalogBaseUrl,
          plugins :=
            (rel.filter (fun r => pyStartsWith r.tagName "plugin-")).filterMap
              parseOpt } := by
  simp [generateCatalog, getPluginReleases, collectPlugins_eq]

/-- Lookup after a dict assignment: the assigned key reads back the new value,
any other key is untouched. -/
theorem dictGet_dictInsert (k k' : String) (v : DownloadEntry)
    (d : List (String × DownloadEntry)) :
    dictGet k (dictInsert k' v d) = if k' = k then some v else dictGet k d := by
  induction d with
  | nil => simp [dictInsert, dictGet]
  | cons kv rest ih =>
    obtain ⟨k₀, v₀⟩ := kv
    by_cases h0 : k₀ = k'
    · subst h0
      by_cases hk : k₀ = k <;> simp [dictInsert, dictGet, hk]
    · have h0' : ¬ k' = k₀ := fun h => h0 h.symm
      by_cases hk : k₀ = k
      · subst hk
        simp [dictInsert, dictGet, h0, h0']
      · simp [dictInsert, dictGet, h0, hk, ih]

/-- Effect of the platform loop over a duplicate-free key list on one lookup. -/
theorem dictGet_recordPlatforms (a : Asset) (p : String) :
    ∀ (ks : List String) (d : List (String × DownloadEntry)), ks.Nodup →
      dictGet p (recordPlatforms a ks d) =
        if p ∈ ks ∧ hasSubstr p a.name = true then some (mkDownloadEntry a)
        else dictGet p d := by
  intro ks
  induction ks with
  | nil => intro d _; simp [recordPlatforms]
  | cons k ks' ih =>
    intro d hnd
    have hnd' : ks'.Nodup := (List.nodup_cons.mp hnd).2
    have hknotin : k ∉ ks' := (List.nodup_cons.mp hnd).1
    rw [recordPlatforms, ih _ hnd']
    by_cases hp : p ∈ ks'
    · have hpk : ¬ p = k := fun h => hknotin (h ▸ hp)
      have hkp : ¬ k = p := fun h => hpk h.symm
      by_cases hs : hasSubstr p a.name = true
      · simp [hp, hs, List.mem_cons]
      · have hstep :
            dictGet p (if hasSubstr k a.name = true
              then dictInsert k (mkDownloadEntry a) d else d) = dictGet p d := by
          split
          · rw [dictGet_dictInsert, if_neg hkp]
          · rfl
        simp [hp, hs, hstep]
    · by_cases hpk : p = k
      · subst hpk
        by_cases hs : hasSubstr p a.name = true
        · simp [hp, hs, dictGet_dictInsert]
        · simp [hp, hs]
      · have hkp : ¬ k = p := fun h => hpk h.symm
        have hstep :
            dictGet p (if hasSubstr k a.name = true
              then dictInsert k (mkDownloadEntry a) d else d) = dictGet p d := by
          split
          · rw [dictGet_dictInsert, if_neg hkp]
          · rfl
        simp [hp, hstep, List.mem_cons, hpk]

/-- Effect of one asset on one platform lookup. -/
theorem dictGet_processAsset (a : Asset) (p : String) (hp : p ∈ platformKeys)
    (d : List (String × DownloadEntry)) :
    dictGet p (processAsset a d) =
      if assetMatches p a = true then some (mkDownloadEntry a)
      else dictGet p d := by
  rw [processAsset]
  by_cases he : pyEndsWith a.name ".plugin" = true
  · rw [if_pos he, dictGet_recordPlatforms a p platformKeys d (by decide)]
    simp [assetMatches, he, hp]
  · rw [if_neg he]
    simp [assetMatches, he]

/-- The whole asset scan realizes last-writer-wins per platform key. -/
theorem dictGet_scanAssets (p : String) (hp : p ∈ platformKeys) :
    ∀ (assets : List Asset) (d : List (String × DownloadEntry)),
      dictGet p (scanAssets assets d) =
        match lastMatchingSpec p assets with
        | some a => some (mkDownloadEntry a)
        | none => dictGet p d := by
  intro assets
  induction assets with
  | nil => intro d; simp [scanAssets, lastMatchingSpec]
  | cons a rest ih =>
    intro d
    have hs : scanAssets (a :: rest) d = scanAssets rest (processAsset a d) := rfl
    rw [hs, ih, lastMatchingSpec]
    cases hlm : lastMatchingSpec p rest with
    | some b => simp
    | none =>
      simp only []
      rw [dictGet_processAsset a p hp]
      by_cases hm : assetMatches p a = true <;> simp [hm]

/-- Stripping all leading `c` characters is exactly `dropWhile`. -/
theorem dropWhile_eq_stripAllLeadingSpec (c : Char) (l : List Char) :
    l.dropWhile (fun x => x == c) = stripAllLeadingSpec c l := by
  induction l with
  | nil => rfl
  | cons x rest ih =>
    rw [List.dropWhile_cons, stripAllLeadingSpec]
    by_cases h : x = c
    · simp [h, ih]
    · simp [h]

/-- The fuel used by the embedded `replace` is sufficient: for a nonempty
pattern it computes the replace-every-occurrence function. -/
theorem pyReplaceAux_eq_replaceEverySpec (old new : List Char) (hold : old ≠ []) :
    ∀ (fuel : Nat) (s : List Char), s.length ≤ fuel →
      pyReplaceAux old new fuel s = replaceEverySpec old new s := by
  intro fuel
  induction fuel with
  | zero =>
    intro s hs
    have hnil : s = [] := List.length_eq_zero.mp (Nat.le_zero.mp hs)
    subst hnil
    simp [pyReplaceAux, replaceEverySpec]
  | succ n ih =>
    intro s hs
    cases s with
    | nil => simp [pyReplaceAux, replaceEverySpec]
    | cons c rest =>
      rw [pyReplaceAux, replaceEverySpec]
      by_cases hp : old.isPrefixOf (c :: rest) = true
      · rw [if_pos hp, dif_pos ⟨hold, hp⟩]
        congr 1
        apply ih
        have hlen := List.length_drop old.length (c :: rest)
        have hpos : 0 < old.length := List.length_pos.mpr hold
        simp only [List.length_cons] at hs hlen ⊢
        omega
      · rw [if_neg hp, dif_neg (fun hc => hp hc.2)]
        congr 1
        apply ih
        simp only [List.length_cons] at hs
        omega

/-- String-level corollary: the embedded `replace` with the nonempty pattern
`.plugin` replaces every occurrence. -/
theorem pyReplace_plugin_eq_every (s : String) :
    pyReplace s ".plugin" ".plugin.sha256" =
      String.mk (replaceEverySpec (".plugin").data (".plugin.sha256").data s.data) := by
  rw [pyReplace]
  rw [pyReplaceAux_eq_replaceEverySpec _ _ (by decide) _ _ (Nat.le_refl _)]

/-- The pure value of the description computation. -/
def descPure (body : Option (Option String)) : String :=
  match body with
  | some (some b) => if b = "" then "" else (pySplit (Char.ofNat 10) b).getD 0 ""
  | _ => ""

/-- The description computation never raises and returns its pure value. -/
theorem descriptionOfE_eq (body : Option (Option String)) :
    descriptionOfE body = Except.ok (descPure body) := by
  match body with
  | none => rfl
  | some none => rfl
  | some (some b) =>
    by_cases hb : b = ""
    · simp [descriptionOfE, descPure, hb]
    · have hlen := pySplit_length_pos (Char.ofNat 10) b
      have hify := listIdx_isOk (pySplit (Char.ofNat 10) b) 0 hlen
      simp [descriptionOfE, descPure, hb, hify, List.getD,
        List.getElem?_eq_getElem hlen]

/-- The pure shape of `parse_plugin_release`: discard on a short tag, discard
on empty downloads, and otherwise an entry whose every field is determined by
the release. -/
theorem parse_eq (r : Release) :
    parsePluginReleaseE r =
      if (pySplit '-' r.tagName).length < 3 then Except.ok none
      else if scanAssets (r.assets.getD []) [] = [] then Except.ok none
      else Except.ok (some
        { id := (pySplit '-' r.tagName).getD 1 "",
          name := pyTitle (pyReplace ((pySplit '-' r.tagName).getD 1 "") "-" " "),
          version := pyLstrip 'v' ((pySplit '-' r.tagName).getD 2 ""),
          official := true,
          downloads := scanAssets (r.assets.getD []) [],
          metadata := { description := descPure r.body, publishedAt := pubOf r } }) := by
  by_cases h3 : (pySplit '-' r.tagName).length < 3
  · simp [parsePluginReleaseE, h3]
  · have h1 : 1 < (pySplit '-' r.tagName).length := by omega
    have h2 : 2 < (pySplit '-' r.tagName).length := by omega
    have hgd1 : (pySplit '-' r.tagName).getD 1 "" = (pySplit '-' r.tagName)[1] := by
      simp [List.getD, List.getElem?_eq_getElem h1]
    have hgd2 : (pySplit '-' r.tagName).getD 2 "" = (pySplit '-' r.tagName)[2] := by
      simp [List.getD, List.getElem?_eq_getElem h2]
    rw [parsePluginReleaseE.eq_def, if_neg h3, if_neg h3,
      listIdx_isOk _ 1 h1, listIdx_isOk _ 2 h2, descriptionOfE_eq, hgd1, hgd2]

/-- C1 (counterexample): for an asset whose url contains `.plugin` twice, the
recorded checksumUrl replaces BOTH occurrences with `.plugin.sha256`, so it
differs from the claim's first-occurrence-only replacement. -/
theorem c1_checksum_counterexample :
    dictGet "linux-amd64"
        (scanAssets [{ name := "bh-linux-amd64.plugin",
                       url := "https://x/dl.plugin/bh-linux-amd64.plugin" }] []) =
      some { url := "https://x/dl.plugin/bh-linux-amd64.plugin",
             checksumUrl := "https://x/dl.plugin.sha256/bh-linux-amd64.plugin.sha256" } ∧
    String.mk (replaceFirstSpec (".plugin").data (".plugin.sha256").data
        ("https://x/dl.plugin/bh-linux-amd64.plugin").data) =
      "https://x/dl.plugin.sha256/bh-linux-amd64.plugin" ∧
    ("https://x/dl.plugin.sha256/bh-linux-amd64.plugin.sha256" : String) ≠
      "https://x/dl.plugin.sha256/bh-linux-amd64.plugin" :=
  ⟨by rfl, by rfl, by decide⟩

/-- C1 (amended): for every asset from which a DownloadEntry is built, the
checksumUrl equals the asset's url with EVERY non-overlapping occurrence of
`.plugin` replaced by `.plugin.sha256`, scanning left to right. -/
theorem c1_checksum_every_occurrence (a : Asset) :
    (mkDownloadEntry a).checksumUrl =
      String.mk (replaceEverySpec (".plugin").data (".plugin.sha256").data
        a.url.data) :=
  pyReplace_plugin_eq_every a.url

/-- C2 (counterexample): for the tag `plugin-node-vv1.2.0`, parts[2] is
`vv1.2.0` and the produced version is `1.2.0` — both leading `v` characters are
stripped, not just the very first one (which would give `v1.2.0`). -/
theorem c2_version_counterexample :
    (parsePluginReleaseE
      { tagName := "plugin-node-vv1.2.0",
        assets := some [{ name := "node-linux-amd64.plugin",
                          url := "https://x/node-linux-amd64.plugin" }] }).toOption.join.map
        (fun e => e.version) = some "1.2.0" ∧
    ("1.2.0" : String) ≠ "v1.2.0" :=
  ⟨by rfl, by decide⟩

/-- C2 (amended): the entry's version equals parts[2] with ALL leading `v`
characters removed. -/
theorem c2_version_strips_all_leading_v (r : Release) (e : CatalogPluginEntry)
    (h : parsePluginReleaseE r = Except.ok (some e)) :
    e.version =
      String.mk (stripAllLeadingSpec 'v' ((pySplit '-' r.tagName).getD 2 "").data) := by
  rw [parse_eq] at h
  split at h
  · simp at h
  · split at h
    · simp at h
    · simp only [Except.ok.injEq, Option.some.injEq] at h
      subst h
      simp [pyLstrip, dropWhile_eq_stripAllLeadingSpec]

/-- Witness for the amended C2 at the concrete double-`v` release. -/
theorem c2_version_strips_all_leading_v_witness :
    parsePluginReleaseE
        { tagName := "plugin-node-vv1.2.0",
          assets := some [{ name := "node-linux-amd64.plugin",
                            url := "https://x/node-linux-amd64.plugin" }] } =
      Except.ok (some
        { id := "node", name := "Node", version := "1.2.0", official := true,
          downloads :=
            [("linux-amd64",
              { url := "https://x/node-linux-amd64.plugin",
                checksumUrl := "https://x/node-linux-amd64.plugin.sha256" })],
          metadata := { description := "", publishedAt := some "" } }) ∧
    ("1.2.0" : String) =
      String.mk (stripAllLeadingSpec 'v'
        ((pySplit '-' "plugin-node-vv1.2.0").getD 2 "").data) :=
  ⟨by rfl,
    c2_version_strips_all_leading_v
      { tagName := "plugin-node-vv1.2.0",
        assets := some [{ name := "node-linux-amd64.plugin",
                          url := "https://x/node-linux-amd64.plugin" }] }
      { id := "node", name := "Node", version := "1.2.0", official := true,
        downloads :=
          [("linux-amd64",
            { url := "https://x/node-linux-amd64.plugin",
              checksumUrl := "https://x/node-linux-amd64.plugin.sha256" })],
        metadata := { description := "", publishedAt := some "" } }
      (by rfl)⟩

/-- C3 (counterexample): a single `.plugin` asset whose name contains two
platform keys gets a DownloadEntry recorded for BOTH keys, not only the first
one in iteration order. -/
theorem c3_multi_platform_counterexample :
    hasSubstr "darwin-amd64" "bh-darwin-amd64-linux-arm64.plugin" = true ∧
    hasSubstr "linux-arm64" "bh-darwin-amd64-linux-arm64.plugin" = true ∧
    dictGet "linux-arm64"
        (scanAssets [{ name := "bh-darwin-amd64-linux-arm64.plugin",
                       url := "https://x/bh.plugin" }] []) =
      some { url := "https://x/bh.plugin",
             checksumUrl := "https://x/bh.plugin.sha256" } :=
  ⟨by rfl, by rfl, by rfl⟩

/-- C3 (amended): for every platform key, the downloads map holds exactly the
DownloadEntry of the LAST asset whose name ends with `.plugin` and contains the
key — every matching key of an asset is recorded (no first-match cutoff), and a
later matching asset overwrites an earlier one. -/
theorem c3_all_matches_last_writer (assets : List Asset) (p : String)
    (hp : p ∈ platformKeys) :
    dictGet p (scanAssets assets []) =
      (lastMatchingSpec p assets).map mkDownloadEntry := by
  rw [dictGet_scanAssets p hp assets []]
  cases lastMatchingSpec p assets <;> simp [dictGet]

/-- Witness for the amended C3 at a concrete two-asset, multi-key scan. -/
theorem c3_all_matches_last_writer_witness :
    ("linux-arm64" : String) ∈ platformKeys ∧
    dictGet "linux-arm64"
        (scanAssets [{ name := "bh-darwin-amd64-linux-arm64.plugin",
                       url := "https://x/bh.plugin" },
                     { name := "new-linux-arm64.plugin",
                       url := "https://x/new.plugin" }] []) =
      (lastMatchingSpec "linux-arm64"
        [{ name := "bh-darwin-amd64-linux-arm64.plugin",
           url := "https://x/bh.plugin" },
         { name := "new-linux-arm64.plugin",
           url := "https://x/new.plugin" }]).map mkDownloadEntry :=
  ⟨by decide,
    c3_all_matches_last_writer
      [{ name := "bh-darwin-amd64-linux-arm64.plugin",
         url := "https://x/bh.plugin" },
       { name := "new-linux-arm64.plugin",
         url := "https://x/new.plugin" }]
      "linux-arm64" (by decide)⟩

/-- C4: a release whose tag does not start with `plugin-` contributes nothing:
the generated catalog is the same with or without the record, with no error in
either case. -/
theorem c4_nonplugin_excluded (rc : Int) (err now : String)
    (pre post : List Release) (r : Release)
    (h : pyStartsWith r.tagName "plugin-" = false) :
    generateCatalog { returncode := rc, releases := pre ++ r :: post, stderr := err } now =
      generateCatalog { returncode := rc, releases := pre ++ post, stderr := err } now := by
  by_cases hrc : rc = 0
  · subst hrc
    rw [generateCatalog_ok, generateCatalog_ok]
    simp [List.filter_append, List.filter_cons, h]
  · simp [generateCatalog, getPluginReleases, hrc]

/-- Witness for C4 at a concrete non-plugin release. -/
theorem c4_nonplugin_excluded_witness :
    pyStartsWith "release-v1.0" "plugin-" = false ∧
    generateCatalog
        { returncode := 0, releases := [{ tagName := "release-v1.0" }], stderr := "" } "t" =
      generateCatalog { returncode := 0, releases := [], stderr := "" } "t" :=
  ⟨by decide, c4_nonplugin_excluded 0 "" "t" [] [] { tagName := "release-v1.0" } (by decide)⟩

/-- C5: a `plugin-` release with a short tag or no recognized assets is dropped
silently: the run succeeds and yields the same catalog as without the record. -/
theorem c5_silent_exclusion (err now : String) (pre post : List Release) (r : Release)
    (hq : pyStartsWith r.tagName "plugin-" = true)
    (hbad : (pySplit '-' r.tagName).length < 3 ∨ scanAssets (r.assets.getD []) [] = []) :
    ∃ cat : Catalog,
      generateCatalog { returncode := 0, releases := pre ++ r :: post, stderr := err } now
        = Except.ok cat ∧
      generateCatalog { returncode := 0, releases := pre ++ post, stderr := err } now
        = Except.ok cat := by
  have hnone : parseOpt r = none := by
    have hok : parsePluginReleaseE r = Except.ok none := by
      rw [parse_eq]
      rcases hbad with hb | hb
      · simp [hb]
      · simp [hb]
    simp [parseOpt, hok]
  refine ⟨_, generateCatalog_ok _ _ _, ?_⟩
  rw [generateCatalog_ok]
  simp [List.filter_append, List.filter_cons, hq,
    List.filterMap_append, List.filterMap_cons, hnone]

/-- Witness for C5 at the concrete two-part tag `plugin-foo`. -/
theorem c5_silent_exclusion_witness :
    ∃ cat : Catalog,
      generateCatalog
          { returncode := 0, releases := [{ tagName := "plugin-foo" }], stderr := "" } "t"
        = Except.ok cat ∧
      generateCatalog { returncode := 0, releases := [], stderr := "" } "t"
        = Except.ok cat :=
  c5_silent_exclusion "" "t" [] [] { tagName := "plugin-foo" }
    (by decide) (Or.inl (by decide))

/-- C6: two qualifying releases appear in the catalog's plugins list in the
same relative order as in the input release sequence. -/
theorem c6_order_preserved (err now : String) (l1 l2 l3 : List Release)
    (r1 r2 : Release) (e1 e2 : CatalogPluginEntry)
    (hq1 : pyStartsWith r1.tagName "plugin-" = true)
    (hq2 : pyStartsWith r2.tagName "plugin-" = true)
    (hp1 : parsePluginReleaseE r1 = Except.ok (some e1))
    (hp2 : parsePluginReleaseE r2 = Except.ok (some e2)) :
    ∃ (cat : Catalog) (m1 m2 m3 : List CatalogPluginEntry),
      generateCatalog
          { returncode := 0, releases := l1 ++ r1 :: (l2 ++ r2 :: l3), stderr := err } now
        = Except.ok cat ∧
      cat.plugins = m1 ++ e1 :: (m2 ++ e2 :: m3) := by
  have ho1 : parseOpt r1 = some e1 := by simp [parseOpt, hp1]
  have ho2 : parseOpt r2 = some e2 := by simp [parseOpt, hp2]
  refine ⟨_,
    (l1.filter (fun r => pyStartsWith r.tagName "plugin-")).filterMap parseOpt,
    (l2.filter (fun r => pyStartsWith r.tagName "plugin-")).filterMap parseOpt,
    (l3.filter (fun r => pyStartsWith r.tagName "plugin-")).filterMap parseOpt,
    generateCatalog_ok _ _ _, ?_⟩
  simp [List.filter_append, List.filter_cons, hq1, hq2,
    List.filterMap_append, List.filterMap_cons, ho1, ho2]

/-- Witness for C6 with two concrete qualifying releases. -/
theorem c6_order_preserved_witness :
    ∃ (cat : Catalog) (m1 m2 m3 : List CatalogPluginEntry),
      generateCatalog
          { returncode := 0,
            releases :=
              [{ tagName := "plugin-node-v1.2.0",
                 assets := some [{ name := "node-linux-amd64.plugin",
                                   url := "https://x/node-linux-amd64.plugin" }] },
               { tagName := "plugin-go-v2.0.0",
                 assets := some [{ name := "go-darwin-arm64.plugin",
                                   url := "https://x/go.plugin" }] }],
            stderr := "" } "t"
        = Except.ok cat ∧
      cat.plugins =
        m1 ++
          { id := "node", name := "Node", version := "1.2.0", official := true,
            downloads :=
              [("linux-amd64",
                { url := "https://x/node-linux-amd64.plugin",
                  checksumUrl := "https://x/node-linux-amd64.plugin.sha256" })],
            metadata := { description := "", publishedAt := some "" } } ::
          (m2 ++
            { id := "go", name := "Go", version := "2.0.0", official := true,
              downloads :=
                [("darwin-arm64",
                  { url := "https://x/go.plugin",
                    checksumUrl := "https://x/go.plugin.sha256" })],
              metadata := { description := "", publishedAt := some "" } } :: m3) :=
  c6_order_preserved "" "t" [] [] []
    { tagName := "plugin-node-v1.2.0",
      assets := some [{ name := "node-linux-amd64.plugin",
                        url := "https://x/node-linux-amd64.plugin" }] }
    { tagName := "plugin-go-v2.0.0",
      assets := some [{ name := "go-darwin-arm64.plugin",
                        url := "https://x/go.plugin" }] }
    { id := "node", name := "Node", version := "1.2.0", official := true,
      downloads :=
        [("linux-amd64",
          { url := "https://x/node-linux-amd64.plugin",
            checksumUrl := "https://x/node-linux-amd64.plugin.sha256" })],
      metadata := { description := "", publishedAt := some "" } }
    { id := "go", name := "Go", version := "2.0.0", official := true,
      downloads :=
        [("darwin-arm64",
          { url := "https://x/go.plugin",
            checksumUrl := "https://x/go.plugin.sha256" })],
      metadata := { description := "", publishedAt := some "" } }
    (by decide) (by decide) (by rfl) (by rfl)

/-- C7: the scenario release `plugin-node-v1.2.0` with a single linux-amd64
`.plugin` asset parses to exactly the specified entry. -/
theorem c7_scenario :
    parsePluginReleaseE
      { tagName := "plugin-node-v1.2.0",
        assets := some [{ name := "node-linux-amd64.plugin",
                          url := "https://x/node-linux-amd64.plugin" }] } =
      Except.ok (some
        { id := "node", name := "Node", version := "1.2.0", official := true,
          downloads :=
            [("linux-amd64",
              { url := "https://x/node-linux-amd64.plugin",
                checksumUrl := "https://x/node-linux-amd64.plugin.sha256" })],
          metadata := { description := "", publishedAt := some "" } }) := by
  rfl

/-- C8 (evaluation at the failing input): when the collaborator reports return
code 1 with diagnostic `boom`, the run exits 1, prints no catalog, writes the
`Error: ...` line on STANDARD OUTPUT, and writes nothing to standard error —
the claim instead requires the error line on standard error. -/
theorem c8_error_goes_to_stdout :
    runMain { returncode := 1, releases := [], stderr := "boom" } "t" =
      { exitCode := 1, stdoutCatalog := none,
        stdoutError := some "Error: Failed to get releases: boom",
        stderrError := none } := by
  rfl

/-- C9: missing manifest spec fields fall back to the documented defaults:
category `uncategorized`, license `MIT`, and the display name falls back to
`metadata.name`. -/
theorem c9_manifest_defaults (m : Manifest) (now : String) :
    (m.spec.category = none → (convertManifest m now).category = "uncategorized") ∧
    (m.spec.license = none → (convertManifest m now).license = "MIT") ∧
    (m.spec.displayName = none → (convertManifest m now).name = m.metadata.name) := by
  refine ⟨fun h => ?_, fun h => ?_, fun h => ?_⟩ <;> simp [convertManifest, h]

/-- Witness for C9 at a concrete manifest with an empty spec section. -/
theorem c9_manifest_defaults_witness :
    (convertManifest { metadata := { name := some "node" }, spec := {} } "t").category
        = "uncategorized" ∧
    (convertManifest { metadata := { name := some "node" }, spec := {} } "t").license
        = "MIT" ∧
    (convertManifest { metadata := { name := some "node" }, spec := {} } "t").name
        = some "node" :=
  ⟨(c9_manifest_defaults { metadata := { name := some "node" }, spec := {} } "t").1 rfl,
   (c9_manifest_defaults { metadata := { name := some "node" }, spec := {} } "t").2.1 rfl,
   ((c9_manifest_defaults { metadata := { name := some "node" }, spec := {} } "t").2.2 rfl).trans rfl⟩

/-- C10: parsing one release of the documented shape is total — it always
returns an entry or nothing and never raises, whatever the tag (including
consecutive dashes), the body (including null), or the assets (including an
absent or empty list). -/
theorem c10_parse_never_raises (r : Release) :
    ∃ p : Option CatalogPluginEntry, parsePluginReleaseE r = Except.ok p :=
  parse_total r
